import Mathlib

/-!
Verification of the Timer Helpers library (`src/VGA_output/TimerHelpers.h`).

The header defines three namespaces `Timer0`, `Timer1`, `Timer2`, one per AVR
timer peripheral.  Each namespace holds a constant `Modes` table mapping a
mode index to the two waveform-generation bit fragments destined for the
control registers TCCRxA and TCCRxB, two enumerations of clock-select and
port-action constants, and a `setMode` routine that range-checks the mode,
clears both control registers, and then ORs the table fragments with the
caller-supplied `clock` and `port` bytes into them.

The two hardware registers of one timer are modelled as a pair of natural
numbers (all values involved are bytes, i.e. stay below 256, so `Nat`
bitwise operations agree with the 8-bit hardware registers).  `setMode`
becomes a pure state transformer on that pair.
-/

/-- `_BV(bit)` from the AVR headers: a byte with only position `bit` set. -/
def BV (bit : Nat) : Nat := 1 <<< bit

/-! Bit positions of the waveform-generation-mode and compare-output-mode
bits in TCCR0A/TCCR0B, TCCR1A/TCCR1B, TCCR2A/TCCR2B.  These names come from
the AVR device header (`avr/io.h` for the ATmega328 family), which the
repository includes but does not contain; the numeric values are the
datasheet register layouts. -/

def WGM00 : Nat := 0
def WGM01 : Nat := 1
def WGM02 : Nat := 3
def COM0A0 : Nat := 6
def COM0A1 : Nat := 7
def COM0B0 : Nat := 4
def COM0B1 : Nat := 5

def WGM10 : Nat := 0
def WGM11 : Nat := 1
def WGM12 : Nat := 3
def WGM13 : Nat := 4
def COM1A0 : Nat := 6
def COM1A1 : Nat := 7
def COM1B0 : Nat := 4
def COM1B1 : Nat := 5

def WGM20 : Nat := 0
def WGM21 : Nat := 1
def WGM22 : Nat := 3
def COM2A0 : Nat := 6
def COM2A1 : Nat := 7
def COM2B0 : Nat := 4
def COM2B1 : Nat := 5

/-- The pair of hardware control registers of one timer
(TCCRxA, TCCRxB), the only state `setMode` touches. -/
structure RegPair where
  tccrA : Nat
  tccrB : Nat
deriving DecidableEq, Repr

namespace Timer0

/-- `Timer0::Modes`: TCCR0A/TCCR0B waveform-generation fragments, modes 0-7. -/
def Modes : List (Nat × Nat) :=
  [ (0,                   0),        -- 0: Normal, top = 0xFF
    (BV WGM00,            0),        -- 1: PWM, Phase-correct, top = 0xFF
    (BV WGM01,            0),        -- 2: CTC, top = OCR0A
    (BV WGM00 ||| BV WGM01, 0),      -- 3: Fast PWM, top = 0xFF
    (0,                   BV WGM02), -- 4: Reserved
    (BV WGM00,            BV WGM02), -- 5: PWM, Phase-correct, top = OCR0A
    (BV WGM01,            BV WGM02), -- 6: Reserved
    (BV WGM00 ||| BV WGM01, BV WGM02) ] -- 7: Fast PWM, top = OCR0A

-- enum { NO_CLOCK, PRESCALE_1, PRESCALE_8, PRESCALE_64, PRESCALE_256,
--        PRESCALE_1024, T0_FALLING, T0_RISING };  (implicit values 0..7)
def NO_CLOCK : Nat := 0
def PRESCALE_1 : Nat := 1
def PRESCALE_8 : Nat := 2
def PRESCALE_64 : Nat := 3
def PRESCALE_256 : Nat := 4
def PRESCALE_1024 : Nat := 5
def T0_FALLING : Nat := 6
def T0_RISING : Nat := 7

-- enum { NO_PORT = 0, TOGGLE_A_ON_COMPARE = _BV (COM0A0), ... };
def NO_PORT : Nat := 0
def TOGGLE_A_ON_COMPARE : Nat := BV COM0A0
def CLEAR_A_ON_COMPARE : Nat := BV COM0A1
def SET_A_ON_COMPARE : Nat := BV COM0A0 ||| BV COM0A1
def TOGGLE_B_ON_COMPARE : Nat := BV COM0B0
def CLEAR_B_ON_COMPARE : Nat := BV COM0B1
def SET_B_ON_COMPARE : Nat := BV COM0B0 ||| BV COM0B1

/-- The full clock-select enumeration, in declaration order. -/
def clockConstants : List Nat :=
  [NO_CLOCK, PRESCALE_1, PRESCALE_8, PRESCALE_64, PRESCALE_256,
   PRESCALE_1024, T0_FALLING, T0_RISING]

/-- The prescale-ratio members of the clock enumeration, in declaration order. -/
def prescaleConstants : List Nat :=
  [PRESCALE_1, PRESCALE_8, PRESCALE_64, PRESCALE_256, PRESCALE_1024]

/-- The external-clock-edge members of the clock enumeration. -/
def externalEdgeConstants : List Nat := [T0_FALLING, T0_RISING]

/-- The port-action enumeration, in declaration order. -/
def portConstants : List Nat :=
  [NO_PORT, TOGGLE_A_ON_COMPARE, CLEAR_A_ON_COMPARE, SET_A_ON_COMPARE,
   TOGGLE_B_ON_COMPARE, CLEAR_B_ON_COMPARE, SET_B_ON_COMPARE]

/-- `Timer0::setMode (mode, clock, port)` acting on the register pair.
The C source guards with `mode < 0 || mode > 7`; `mode` is an unsigned
`byte`, so `mode < 0` is always false and only `mode > 7` remains.  On the
valid path the source sets `TCCR0A = 0; TCCR0B = 0;` and then
`TCCR0A |= Modes[mode][0] | port; TCCR0B |= Modes[mode][1] | clock;`.
The guard keeps the index in bounds, so the in-bounds lookup is `getD`. -/
def setMode (mode clock port : Nat) (s : RegPair) : RegPair :=
  if mode > 7 then s
  else
    { tccrA := 0 ||| ((Modes.getD mode (0, 0)).1 ||| port),
      tccrB := 0 ||| ((Modes.getD mode (0, 0)).2 ||| clock) }

end Timer0

namespace Timer1

/-- `Timer1::Modes`: TCCR1A/TCCR1B waveform-generation fragments, modes 0-15. -/
def Modes : List (Nat × Nat) :=
  [ (0,                   0),              -- 0: Normal, top = 0xFFFF
    (BV WGM10,            0),              -- 1: PWM, Phase-correct, 8 bit
    (BV WGM11,            0),              -- 2: PWM, Phase-correct, 9 bit
    (BV WGM10 ||| BV WGM11, 0),            -- 3: PWM, Phase-correct, 10 bit
    (0,                   BV WGM12),       -- 4: CTC, top = OCR1A
    (BV WGM10,            BV WGM12),       -- 5: Fast PWM, 8 bit
    (BV WGM11,            BV WGM12),       -- 6: Fast PWM, 9 bit
    (BV WGM10 ||| BV WGM11, BV WGM12),     -- 7: Fast PWM, 10 bit
    (0,                   BV WGM13),       -- 8: PWM, phase and frequency correct, top = ICR1
    (BV WGM10,            BV WGM13),       -- 9: PWM, phase and frequency correct, top = OCR1A
    (BV WGM11,            BV WGM13),       -- 10: PWM, phase correct, top = ICR1A
    (BV WGM10 ||| BV WGM11, BV WGM13),     -- 11: PWM, phase correct, top = OCR1A
    (0,                   BV WGM12 ||| BV WGM13),  -- 12: CTC, top = ICR1
    (BV WGM10,            BV WGM12 ||| BV WGM13),  -- 13: reserved
    (BV WGM11,            BV WGM12 ||| BV WGM13),  -- 14: Fast PWM, TOP = ICR1
    (BV WGM10 ||| BV WGM11, BV WGM12 ||| BV WGM13) ] -- 15: Fast PWM, TOP = OCR1A

-- enum { NO_CLOCK, PRESCALE_1, PRESCALE_8, PRESCALE_64, PRESCALE_256,
--        PRESCALE_1024, T1_FALLING, T1_RISING };  (implicit values 0..7)
def NO_CLOCK : Nat := 0
def PRESCALE_1 : Nat := 1
def PRESCALE_8 : Nat := 2
def PRESCALE_64 : Nat := 3
def PRESCALE_256 : Nat := 4
def PRESCALE_1024 : Nat := 5
def T1_FALLING : Nat := 6
def T1_RISING : Nat := 7

-- enum { NO_PORT = 0, TOGGLE_A_ON_COMPARE = _BV (COM1A0), ... };
def NO_PORT : Nat := 0
def TOGGLE_A_ON_COMPARE : Nat := BV COM1A0
def CLEAR_A_ON_COMPARE : Nat := BV COM1A1
def SET_A_ON_COMPARE : Nat := BV COM1A0 ||| BV COM1A1
def TOGGLE_B_ON_COMPARE : Nat := BV COM1B0
def CLEAR_B_ON_COMPARE : Nat := BV COM1B1
def SET_B_ON_COMPARE : Nat := BV COM1B0 ||| BV COM1B1

/-- The full clock-select enumeration, in declaration order. -/
def clockConstants : List Nat :=
  [NO_CLOCK, PRESCALE_1, PRESCALE_8, PRESCALE_64, PRESCALE_256,
   PRESCALE_1024, T1_FALLING, T1_RISING]

/-- The prescale-ratio members of the clock enumeration, in declaration order. -/
def prescaleConstants : List Nat :=
  [PRESCALE_1, PRESCALE_8, PRESCALE_64, PRESCALE_256, PRESCALE_1024]

/-- The external-clock-edge members of the clock enumeration. -/
def externalEdgeConstants : List Nat := [T1_FALLING, T1_RISING]

/-- The port-action enumeration, in declaration order. -/
def portConstants : List Nat :=
  [NO_PORT, TOGGLE_A_ON_COMPARE, CLEAR_A_ON_COMPARE, SET_A_ON_COMPARE,
   TOGGLE_B_ON_COMPARE, CLEAR_B_ON_COMPARE, SET_B_ON_COMPARE]

/-- `Timer1::setMode (mode, clock, port)`: guard `mode < 0 || mode > 15`
(`mode < 0` vacuous on the unsigned byte), then clear TCCR1A/TCCR1B and OR
in `Modes[mode][0] | port` and `Modes[mode][1] | clock`. -/
def setMode (mode clock port : Nat) (s : RegPair) : RegPair :=
  if mode > 15 then s
  else
    { tccrA := 0 ||| ((Modes.getD mode (0, 0)).1 ||| port),
      tccrB := 0 ||| ((Modes.getD mode (0, 0)).2 ||| clock) }

end Timer1

namespace Timer2

/-- `Timer2::Modes`: TCCR2A/TCCR2B waveform-generation fragments, modes 0-7. -/
def Modes : List (Nat × Nat) :=
  [ (0,                   0),        -- 0: Normal, top = 0xFF
    (BV WGM20,            0),        -- 1: PWM, Phase-correct, top = 0xFF
    (BV WGM21,            0),        -- 2: CTC, top = OCR2A
    (BV WGM20 ||| BV WGM21, 0),      -- 3: Fast PWM, top = 0xFF
    (0,                   BV WGM22), -- 4: Reserved
    (BV WGM20,            BV WGM22), -- 5: PWM, Phase-correct, top = OCR2A
    (BV WGM21,            BV WGM22), -- 6: Reserved
    (BV WGM20 ||| BV WGM21, BV WGM22) ] -- 7: Fast PWM, top = OCR2A

-- enum { NO_CLOCK, PRESCALE_1, PRESCALE_8, PRESCALE_32, PRESCALE_64,
--        PRESCALE_128, PRESCALE_256, PRESCALE_1024 };  (implicit values 0..7)
def NO_CLOCK : Nat := 0
def PRESCALE_1 : Nat := 1
def PRESCALE_8 : Nat := 2
def PRESCALE_32 : Nat := 3
def PRESCALE_64 : Nat := 4
def PRESCALE_128 : Nat := 5
def PRESCALE_256 : Nat := 6
def PRESCALE_1024 : Nat := 7

-- enum { NO_PORT = 0, TOGGLE_A_ON_COMPARE = _BV (COM2A0), ... };
def NO_PORT : Nat := 0
def TOGGLE_A_ON_COMPARE : Nat := BV COM2A0
def CLEAR_A_ON_COMPARE : Nat := BV COM2A1
def SET_A_ON_COMPARE : Nat := BV COM2A0 ||| BV COM2A1
def TOGGLE_B_ON_COMPARE : Nat := BV COM2B0
def CLEAR_B_ON_COMPARE : Nat := BV COM2B1
def SET_B_ON_COMPARE : Nat := BV COM2B0 ||| BV COM2B1

/-- The full clock-select enumeration, in declaration order. -/
def clockConstants : List Nat :=
  [NO_CLOCK, PRESCALE_1, PRESCALE_8, PRESCALE_32, PRESCALE_64,
   PRESCALE_128, PRESCALE_256, PRESCALE_1024]

/-- The prescale-ratio members of the clock enumeration, in declaration order. -/
def prescaleConstants : List Nat :=
  [PRESCALE_1, PRESCALE_8, PRESCALE_32, PRESCALE_64, PRESCALE_128,
   PRESCALE_256, PRESCALE_1024]

/-- The external-clock-edge members of the clock enumeration: Timer2's
enum declares none. -/
def externalEdgeConstants : List Nat := []

/-- The port-action enumeration, in declaration order. -/
def portConstants : List Nat :=
  [NO_PORT, TOGGLE_A_ON_COMPARE, CLEAR_A_ON_COMPARE, SET_A_ON_COMPARE,
   TOGGLE_B_ON_COMPARE, CLEAR_B_ON_COMPARE, SET_B_ON_COMPARE]

/-- `Timer2::setMode (mode, clock, port)`: guard `mode < 0 || mode > 7`
(`mode < 0` vacuous on the unsigned byte), then clear TCCR2A/TCCR2B and OR
in `Modes[mode][0] | port` and `Modes[mode][1] | clock`. -/
def setMode (mode clock port : Nat) (s : RegPair) : RegPair :=
  if mode > 7 then s
  else
    { tccrA := 0 ||| ((Modes.getD mode (0, 0)).1 ||| port),
      tccrB := 0 ||| ((Modes.getD mode (0, 0)).2 ||| clock) }

end Timer2

/-- A list of naturals is strictly ascending. -/
def ascendingList : List Nat → Bool
  | [] => true
  | [_] => true
  | a :: b :: t => decide (a < b) && ascendingList (b :: t)

/-- Entry `m` of mode table `t` has a fragment B sharing no bit with any
constant in `clocks`. -/
def fragB_disjoint_clocks (t : List (Nat × Nat)) (clocks : List Nat) (m : Nat) : Bool :=
  clocks.all fun c => (t.getD m (0, 0)).2 &&& c == 0

/-- Entry `m` of mode table `t` has a fragment A sharing no bit with any
constant in `ports`. -/
def fragA_disjoint_ports (t : List (Nat × Nat)) (ports : List Nat) (m : Nat) : Bool :=
  ports.all fun p => (t.getD m (0, 0)).1 &&& p == 0

/-- Entry `m` of mode table `t` has a fragment A sharing no bit with the OR
of any two constants in `ports`. -/
def fragA_disjoint_port_pairs (t : List (Nat × Nat)) (ports : List Nat) (m : Nat) : Bool :=
  ports.all fun p => ports.all fun q => (t.getD m (0, 0)).1 &&& (p ||| q) == 0

/-! ### Helper lemmas shared by the claim theorems -/

theorem Timer0.setMode_valid_t0 (mode clock port : Nat) (h : mode < 8) (s : RegPair) :
    Timer0.setMode mode clock port s =
      ⟨(Timer0.Modes.getD mode (0, 0)).1 ||| port,
       (Timer0.Modes.getD mode (0, 0)).2 ||| clock⟩ := by
  unfold Timer0.setMode
  rw [if_neg (by omega)]
  simp [Nat.zero_or]

theorem Timer1.setMode_valid_t1 (mode clock port : Nat) (h : mode < 16) (s : RegPair) :
    Timer1.setMode mode clock port s =
      ⟨(Timer1.Modes.getD mode (0, 0)).1 ||| port,
       (Timer1.Modes.getD mode (0, 0)).2 ||| clock⟩ := by
  unfold Timer1.setMode
  rw [if_neg (by omega)]
  simp [Nat.zero_or]

theorem Timer2.setMode_valid_t2 (mode clock port : Nat) (h : mode < 8) (s : RegPair) :
    Timer2.setMode mode clock port s =
      ⟨(Timer2.Modes.getD mode (0, 0)).1 ||| port,
       (Timer2.Modes.getD mode (0, 0)).2 ||| clock⟩ := by
  unfold Timer2.setMode
  rw [if_neg (by omega)]
  simp [Nat.zero_or]

theorem Timer0.setMode_oob_t0 (mode clock port : Nat) (h : 8 ≤ mode) (s : RegPair) :
    Timer0.setMode mode clock port s = s := by
  unfold Timer0.setMode
  rw [if_pos (by omega)]

theorem Timer1.setMode_oob_t1 (mode clock port : Nat) (h : 16 ≤ mode) (s : RegPair) :
    Timer1.setMode mode clock port s = s := by
  unfold Timer1.setMode
  rw [if_pos (by omega)]

theorem Timer2.setMode_oob_t2 (mode clock port : Nat) (h : 8 ≤ mode) (s : RegPair) :
    Timer2.setMode mode clock port s = s := by
  unfold Timer2.setMode
  rw [if_pos (by omega)]

/-! ### Claim theorems -/

/-- C1: for every timer (Timer0 with N=8, Timer1 with N=16, Timer2 with N=8),
every mode index in `[0, N)` and all byte values `clock` and `port`,
`setMode` sets control-register-A to exactly `Modes[m][0] OR port` and
control-register-B to exactly `Modes[m][1] OR clock`, with no other bits. -/
theorem setMode_writes_exact_mode_or_inputs (m0 m1 m2 clock port : Nat)
    (h0 : m0 < 8) (h1 : m1 < 16) (h2 : m2 < 8)
    (_hclock : clock < 256) (_hport : port < 256) (s0 s1 s2 : RegPair) :
    Timer0.setMode m0 clock port s0 =
      ⟨(Timer0.Modes.getD m0 (0, 0)).1 ||| port,
       (Timer0.Modes.getD m0 (0, 0)).2 ||| clock⟩ ∧
    Timer1.setMode m1 clock port s1 =
      ⟨(Timer1.Modes.getD m1 (0, 0)).1 ||| port,
       (Timer1.Modes.getD m1 (0, 0)).2 ||| clock⟩ ∧
    Timer2.setMode m2 clock port s2 =
      ⟨(Timer2.Modes.getD m2 (0, 0)).1 ||| port,
       (Timer2.Modes.getD m2 (0, 0)).2 ||| clock⟩ :=
  ⟨Timer0.setMode_valid_t0 m0 clock port h0 s0,
   Timer1.setMode_valid_t1 m1 clock port h1 s1,
   Timer2.setMode_valid_t2 m2 clock port h2 s2⟩

theorem setMode_writes_exact_mode_or_inputs_witness :
    Timer0.setMode 2 3 128 ⟨17, 255⟩ =
      ⟨(Timer0.Modes.getD 2 (0, 0)).1 ||| 128,
       (Timer0.Modes.getD 2 (0, 0)).2 ||| 3⟩ ∧
    Timer1.setMode 12 3 128 ⟨17, 255⟩ =
      ⟨(Timer1.Modes.getD 12 (0, 0)).1 ||| 128,
       (Timer1.Modes.getD 12 (0, 0)).2 ||| 3⟩ ∧
    Timer2.setMode 7 3 128 ⟨17, 255⟩ =
      ⟨(Timer2.Modes.getD 7 (0, 0)).1 ||| 128,
       (Timer2.Modes.getD 7 (0, 0)).2 ||| 3⟩ :=
  setMode_writes_exact_mode_or_inputs 2 12 7 3 128
    (by decide) (by decide) (by decide) (by decide) (by decide)
    ⟨17, 255⟩ ⟨17, 255⟩ ⟨17, 255⟩

/-- C2: for every timer and every mode index outside `[0, N)`, `setMode`
leaves both control registers exactly unchanged (silent no-op, no error
signalled: the routine's only observable effect is the register state). -/
theorem setMode_out_of_range_noop (m0 m1 m2 clock port : Nat)
    (h0 : 8 ≤ m0) (h1 : 16 ≤ m1) (h2 : 8 ≤ m2) (s0 s1 s2 : RegPair) :
    Timer0.setMode m0 clock port s0 = s0 ∧
    Timer1.setMode m1 clock port s1 = s1 ∧
    Timer2.setMode m2 clock port s2 = s2 :=
  ⟨Timer0.setMode_oob_t0 m0 clock port h0 s0,
   Timer1.setMode_oob_t1 m1 clock port h1 s1,
   Timer2.setMode_oob_t2 m2 clock port h2 s2⟩

theorem setMode_out_of_range_noop_witness :
    Timer0.setMode 8 3 128 ⟨17, 255⟩ = ⟨17, 255⟩ ∧
    Timer1.setMode 16 3 128 ⟨17, 255⟩ = ⟨17, 255⟩ ∧
    Timer2.setMode 255 3 128 ⟨17, 255⟩ = ⟨17, 255⟩ :=
  setMode_out_of_range_noop 8 16 255 3 128
    (by decide) (by decide) (by decide) ⟨17, 255⟩ ⟨17, 255⟩ ⟨17, 255⟩

/-- C3: for every timer, valid mode index, clock and port, the post-call
register state is independent of the pre-call register contents: the same
call from any two prior states ends in identical register states. -/
theorem setMode_result_independent_of_prior_state (m0 m1 m2 clock port : Nat)
    (h0 : m0 < 8) (h1 : m1 < 16) (h2 : m2 < 8) (s0 t0 s1 t1 s2 t2 : RegPair) :
    Timer0.setMode m0 clock port s0 = Timer0.setMode m0 clock port t0 ∧
    Timer1.setMode m1 clock port s1 = Timer1.setMode m1 clock port t1 ∧
    Timer2.setMode m2 clock port s2 = Timer2.setMode m2 clock port t2 := by
  refine ⟨?_, ?_, ?_⟩
  · rw [Timer0.setMode_valid_t0 m0 clock port h0 s0,
        Timer0.setMode_valid_t0 m0 clock port h0 t0]
  · rw [Timer1.setMode_valid_t1 m1 clock port h1 s1,
        Timer1.setMode_valid_t1 m1 clock port h1 t1]
  · rw [Timer2.setMode_valid_t2 m2 clock port h2 s2,
        Timer2.setMode_valid_t2 m2 clock port h2 t2]

theorem setMode_result_independent_of_prior_state_witness :
    Timer0.setMode 5 2 64 ⟨0, 0⟩ = Timer0.setMode 5 2 64 ⟨255, 255⟩ ∧
    Timer1.setMode 14 2 64 ⟨0, 0⟩ = Timer1.setMode 14 2 64 ⟨255, 255⟩ ∧
    Timer2.setMode 5 2 64 ⟨0, 0⟩ = Timer2.setMode 5 2 64 ⟨255, 255⟩ :=
  setMode_result_independent_of_prior_state 5 14 5 2 64
    (by decide) (by decide) (by decide) ⟨0, 0⟩ ⟨255, 255⟩ ⟨0, 0⟩ ⟨255, 255⟩
    ⟨0, 0⟩ ⟨255, 255⟩

/-- C4: for every timer and every argument triple (valid or not), calling
`setMode` twice in succession leaves the registers in the same state as
calling it once. -/
theorem setMode_idempotent (m clock port : Nat) (s0 s1 s2 : RegPair) :
    Timer0.setMode m clock port (Timer0.setMode m clock port s0) =
      Timer0.setMode m clock port s0 ∧
    Timer1.setMode m clock port (Timer1.setMode m clock port s1) =
      Timer1.setMode m clock port s1 ∧
    Timer2.setMode m clock port (Timer2.setMode m clock port s2) =
      Timer2.setMode m clock port s2 := by
  refine ⟨?_, ?_, ?_⟩
  · by_cases h : m < 8
    · simp only [Timer0.setMode_valid_t0 m clock port h]
    · simp only [Timer0.setMode_oob_t0 m clock port (by omega)]
  · by_cases h : m < 16
    · simp only [Timer1.setMode_valid_t1 m clock port h]
    · simp only [Timer1.setMode_oob_t1 m clock port (by omega)]
  · by_cases h : m < 8
    · simp only [Timer2.setMode_valid_t2 m clock port h]
    · simp only [Timer2.setMode_oob_t2 m clock port (by omega)]

/-- C5: for every timer and valid mode, `setMode` validates neither `clock`
nor `port`: any byte clock value and any byte port value — including ORs of
several named port constants such as `TOGGLE_A_ON_COMPARE | SET_B_ON_COMPARE`
— is OR-ed verbatim into control-register-B and control-register-A. -/
theorem setMode_pass_through_unvalidated (m0 m1 m2 clock port : Nat)
    (h0 : m0 < 8) (h1 : m1 < 16) (h2 : m2 < 8)
    (_hclock : clock < 256) (_hport : port < 256) (s0 s1 s2 : RegPair) :
    ((Timer0.setMode m0 clock port s0).tccrB =
        (Timer0.Modes.getD m0 (0, 0)).2 ||| clock ∧
     (Timer0.setMode m0 clock port s0).tccrA =
        (Timer0.Modes.getD m0 (0, 0)).1 ||| port ∧
     (Timer0.setMode m0 clock
         (Timer0.TOGGLE_A_ON_COMPARE ||| Timer0.SET_B_ON_COMPARE) s0).tccrA =
        (Timer0.Modes.getD m0 (0, 0)).1 |||
          (Timer0.TOGGLE_A_ON_COMPARE ||| Timer0.SET_B_ON_COMPARE)) ∧
    ((Timer1.setMode m1 clock port s1).tccrB =
        (Timer1.Modes.getD m1 (0, 0)).2 ||| clock ∧
     (Timer1.setMode m1 clock port s1).tccrA =
        (Timer1.Modes.getD m1 (0, 0)).1 ||| port ∧
     (Timer1.setMode m1 clock
         (Timer1.TOGGLE_A_ON_COMPARE ||| Timer1.SET_B_ON_COMPARE) s1).tccrA =
        (Timer1.Modes.getD m1 (0, 0)).1 |||
          (Timer1.TOGGLE_A_ON_COMPARE ||| Timer1.SET_B_ON_COMPARE)) ∧
    ((Timer2.setMode m2 clock port s2).tccrB =
        (Timer2.Modes.getD m2 (0, 0)).2 ||| clock ∧
     (Timer2.setMode m2 clock port s2).tccrA =
        (Timer2.Modes.getD m2 (0, 0)).1 ||| port ∧
     (Timer2.setMode m2 clock
         (Timer2.TOGGLE_A_ON_COMPARE ||| Timer2.SET_B_ON_COMPARE) s2).tccrA =
        (Timer2.Modes.getD m2 (0, 0)).1 |||
          (Timer2.TOGGLE_A_ON_COMPARE ||| Timer2.SET_B_ON_COMPARE)) := by
  refine ⟨⟨?_, ?_, ?_⟩, ⟨?_, ?_, ?_⟩, ⟨?_, ?_, ?_⟩⟩
  · rw [Timer0.setMode_valid_t0 m0 clock port h0 s0]
  · rw [Timer0.setMode_valid_t0 m0 clock port h0 s0]
  · rw [Timer0.setMode_valid_t0 m0 clock
        (Timer0.TOGGLE_A_ON_COMPARE ||| Timer0.SET_B_ON_COMPARE) h0 s0]
  · rw [Timer1.setMode_valid_t1 m1 clock port h1 s1]
  · rw [Timer1.setMode_valid_t1 m1 clock port h1 s1]
  · rw [Timer1.setMode_valid_t1 m1 clock
        (Timer1.TOGGLE_A_ON_COMPARE ||| Timer1.SET_B_ON_COMPARE) h1 s1]
  · rw [Timer2.setMode_valid_t2 m2 clock port h2 s2]
  · rw [Timer2.setMode_valid_t2 m2 clock port h2 s2]
  · rw [Timer2.setMode_valid_t2 m2 clock
        (Timer2.TOGGLE_A_ON_COMPARE ||| Timer2.SET_B_ON_COMPARE) h2 s2]

theorem setMode_pass_through_unvalidated_witness :
    ((Timer0.setMode 3 255 255 ⟨1, 2⟩).tccrB =
        (Timer0.Modes.getD 3 (0, 0)).2 ||| 255 ∧
     (Timer0.setMode 3 255 255 ⟨1, 2⟩).tccrA =
        (Timer0.Modes.getD 3 (0, 0)).1 ||| 255 ∧
     (Timer0.setMode 3 255
         (Timer0.TOGGLE_A_ON_COMPARE ||| Timer0.SET_B_ON_COMPARE) ⟨1, 2⟩).tccrA =
        (Timer0.Modes.getD 3 (0, 0)).1 |||
          (Timer0.TOGGLE_A_ON_COMPARE ||| Timer0.SET_B_ON_COMPARE)) ∧
    ((Timer1.setMode 15 255 255 ⟨1, 2⟩).tccrB =
        (Timer1.Modes.getD 15 (0, 0)).2 ||| 255 ∧
     (Timer1.setMode 15 255 255 ⟨1, 2⟩).tccrA =
        (Timer1.Modes.getD 15 (0, 0)).1 ||| 255 ∧
     (Timer1.setMode 15 255
         (Timer1.TOGGLE_A_ON_COMPARE ||| Timer1.SET_B_ON_COMPARE) ⟨1, 2⟩).tccrA =
        (Timer1.Modes.getD 15 (0, 0)).1 |||
          (Timer1.TOGGLE_A_ON_COMPARE ||| Timer1.SET_B_ON_COMPARE)) ∧
    ((Timer2.setMode 3 255 255 ⟨1, 2⟩).tccrB =
        (Timer2.Modes.getD 3 (0, 0)).2 ||| 255 ∧
     (Timer2.setMode 3 255 255 ⟨1, 2⟩).tccrA =
        (Timer2.Modes.getD 3 (0, 0)).1 ||| 255 ∧
     (Timer2.setMode 3 255
         (Timer2.TOGGLE_A_ON_COMPARE ||| Timer2.SET_B_ON_COMPARE) ⟨1, 2⟩).tccrA =
        (Timer2.Modes.getD 3 (0, 0)).1 |||
          (Timer2.TOGGLE_A_ON_COMPARE ||| Timer2.SET_B_ON_COMPARE)) :=
  setMode_pass_through_unvalidated 3 15 3 255 255
    (by decide) (by decide) (by decide) (by decide) (by decide)
    ⟨1, 2⟩ ⟨1, 2⟩ ⟨1, 2⟩

/-- C6 counterexample: Timer1 mode 12 (CTC, top = ICR1) has fragment B equal
to `_BV(WGM12) | _BV(WGM13)`, i.e. two distinct mode bits — refuting the
claim that every entry's fragment B uses at most one mode bit. -/
theorem timer1_mode12_fragmentB_uses_two_bits :
    (Timer1.Modes.getD 12 (0, 0)).2 = BV WGM12 ||| BV WGM13 ∧
    ¬ ((Timer1.Modes.getD 12 (0, 0)).2 = 0 ∨
       (Timer1.Modes.getD 12 (0, 0)).2 = BV WGM12 ∨
       (Timer1.Modes.getD 12 (0, 0)).2 = BV WGM13) := by
  decide

/-- C6 (amended): Timer1's mode table has 16 entries (one per mode number
0-15, reserved rows included so indices stay aligned) and realises a
2-bit/2-bit split: every entry's fragment A uses at most the two mode bits
WGM10/WGM11 and every entry's fragment B uses at most the two mode bits
WGM12/WGM13. -/
theorem timer1_modes_two_bit_two_bit_split (m : Nat) (hm : m < 16) :
    Timer1.Modes.length = 16 ∧
    (Timer1.Modes.getD m (0, 0)).1 &&& (BV WGM10 ||| BV WGM11) =
      (Timer1.Modes.getD m (0, 0)).1 ∧
    (Timer1.Modes.getD m (0, 0)).2 &&& (BV WGM12 ||| BV WGM13) =
      (Timer1.Modes.getD m (0, 0)).2 := by
  interval_cases m <;> decide

theorem timer1_modes_two_bit_two_bit_split_witness :
    Timer1.Modes.length = 16 ∧
    (Timer1.Modes.getD 13 (0, 0)).1 &&& (BV WGM10 ||| BV WGM11) =
      (Timer1.Modes.getD 13 (0, 0)).1 ∧
    (Timer1.Modes.getD 13 (0, 0)).2 &&& (BV WGM12 ||| BV WGM13) =
      (Timer1.Modes.getD 13 (0, 0)).2 :=
  timer1_modes_two_bit_two_bit_split 13 (by decide)

/-- C7 counterexample: external-clock-edge constants are not confined to the
two 8-bit timers — the 16-bit Timer1's clock enumeration does contain the
edge constants `T1_FALLING`/`T1_RISING`, while the 8-bit Timer2's
enumeration contains none. -/
theorem external_edges_not_on_8bit_timers_only :
    Timer1.externalEdgeConstants = [Timer1.T1_FALLING, Timer1.T1_RISING] ∧
    Timer1.externalEdgeConstants ≠ [] ∧
    Timer2.externalEdgeConstants = [] := by
  decide

/-- C7 (amended): in every timer's clock-selector enumeration the no-clock
constant equals 0 and the prescale constants are ascending small integers;
distinct external-clock-edge constants are provided for Timer0 and Timer1
only, and Timer2's enumeration contains no external-clock-edge values. -/
theorem clock_enumerations_structure :
    Timer0.NO_CLOCK = 0 ∧ Timer1.NO_CLOCK = 0 ∧ Timer2.NO_CLOCK = 0 ∧
    ascendingList Timer0.prescaleConstants = true ∧
    ascendingList Timer1.prescaleConstants = true ∧
    ascendingList Timer2.prescaleConstants = true ∧
    Timer0.externalEdgeConstants = [Timer0.T0_FALLING, Timer0.T0_RISING] ∧
    Timer0.T0_FALLING ≠ Timer0.T0_RISING ∧
    Timer1.externalEdgeConstants = [Timer1.T1_FALLING, Timer1.T1_RISING] ∧
    Timer1.T1_FALLING ≠ Timer1.T1_RISING ∧
    Timer2.externalEdgeConstants = [] := by
  decide

/-- C8: in every `setMode` the mode table is only indexed after the guard
has passed; under the guard the index is within the table length, an
`Option`-returning lookup never yields `none`, and the guard `¬ (mode > N-1)`
is equivalent to `mode < N` (the table length). -/
theorem setMode_table_access_in_bounds (m0 m1 m2 : Nat)
    (h0 : ¬ m0 > 7) (h1 : ¬ m1 > 15) (h2 : ¬ m2 > 7) :
    ((¬ m0 > 7) ↔ m0 < Timer0.Modes.length) ∧
    Timer0.Modes.get? m0 ≠ none ∧
    ((¬ m1 > 15) ↔ m1 < Timer1.Modes.length) ∧
    Timer1.Modes.get? m1 ≠ none ∧
    ((¬ m2 > 7) ↔ m2 < Timer2.Modes.length) ∧
    Timer2.Modes.get? m2 ≠ none := by
  have l0 : Timer0.Modes.length = 8 := rfl
  have l1 : Timer1.Modes.length = 16 := rfl
  have l2 : Timer2.Modes.length = 8 := rfl
  refine ⟨by omega, ?_, by omega, ?_, by omega, ?_⟩
  · intro hn
    rw [List.get?_eq_none] at hn
    omega
  · intro hn
    rw [List.get?_eq_none] at hn
    omega
  · intro hn
    rw [List.get?_eq_none] at hn
    omega

theorem setMode_table_access_in_bounds_witness :
    ((¬ 5 > 7) ↔ 5 < Timer0.Modes.length) ∧
    Timer0.Modes.get? 5 ≠ none ∧
    ((¬ 13 > 15) ↔ 13 < Timer1.Modes.length) ∧
    Timer1.Modes.get? 13 ≠ none ∧
    ((¬ 0 > 7) ↔ 0 < Timer2.Modes.length) ∧
    Timer2.Modes.get? 0 ≠ none :=
  setMode_table_access_in_bounds 5 13 0 (by decide) (by decide) (by decide)

theorem Timer0.disjoint_all_t0 :
    ∀ m < 8,
      fragB_disjoint_clocks Timer0.Modes Timer0.clockConstants m = true ∧
      fragA_disjoint_ports Timer0.Modes Timer0.portConstants m = true ∧
      fragA_disjoint_port_pairs Timer0.Modes Timer0.portConstants m = true := by
  decide

theorem Timer1.disjoint_all_t1 :
    ∀ m < 16,
      fragB_disjoint_clocks Timer1.Modes Timer1.clockConstants m = true ∧
      fragA_disjoint_ports Timer1.Modes Timer1.portConstants m = true ∧
      fragA_disjoint_port_pairs Timer1.Modes Timer1.portConstants m = true := by
  decide

theorem Timer2.disjoint_all_t2 :
    ∀ m < 8,
      fragB_disjoint_clocks Timer2.Modes Timer2.clockConstants m = true ∧
      fragA_disjoint_ports Timer2.Modes Timer2.portConstants m = true ∧
      fragA_disjoint_port_pairs Timer2.Modes Timer2.portConstants m = true := by
  decide

/-- C9: for every timer and valid mode index, the mode-fragment bits occupy
register bit positions disjoint from every named clock constant and from
every named port constant (and from the OR of any two port constants), so
the ORs in `setMode` never overlap and the written registers decompose
uniquely into mode, clock, and port contributions. -/
theorem mode_bits_disjoint_from_clock_and_port_bits (m0 m1 m2 : Nat)
    (h0 : m0 < 8) (h1 : m1 < 16) (h2 : m2 < 8) :
    (fragB_disjoint_clocks Timer0.Modes Timer0.clockConstants m0 = true ∧
     fragA_disjoint_ports Timer0.Modes Timer0.portConstants m0 = true ∧
     fragA_disjoint_port_pairs Timer0.Modes Timer0.portConstants m0 = true) ∧
    (fragB_disjoint_clocks Timer1.Modes Timer1.clockConstants m1 = true ∧
     fragA_disjoint_ports Timer1.Modes Timer1.portConstants m1 = true ∧
     fragA_disjoint_port_pairs Timer1.Modes Timer1.portConstants m1 = true) ∧
    (fragB_disjoint_clocks Timer2.Modes Timer2.clockConstants m2 = true ∧
     fragA_disjoint_ports Timer2.Modes Timer2.portConstants m2 = true ∧
     fragA_disjoint_port_pairs Timer2.Modes Timer2.portConstants m2 = true) :=
  ⟨Timer0.disjoint_all_t0 m0 h0, Timer1.disjoint_all_t1 m1 h1, Timer2.disjoint_all_t2 m2 h2⟩

theorem mode_bits_disjoint_from_clock_and_port_bits_witness :
    (fragB_disjoint_clocks Timer0.Modes Timer0.clockConstants 7 = true ∧
     fragA_disjoint_ports Timer0.Modes Timer0.portConstants 7 = true ∧
     fragA_disjoint_port_pairs Timer0.Modes Timer0.portConstants 7 = true) ∧
    (fragB_disjoint_clocks Timer1.Modes Timer1.clockConstants 15 = true ∧
     fragA_disjoint_ports Timer1.Modes Timer1.portConstants 15 = true ∧
     fragA_disjoint_port_pairs Timer1.Modes Timer1.portConstants 15 = true) ∧
    (fragB_disjoint_clocks Timer2.Modes Timer2.clockConstants 7 = true ∧
     fragA_disjoint_ports Timer2.Modes Timer2.portConstants 7 = true ∧
     fragA_disjoint_port_pairs Timer2.Modes Timer2.portConstants 7 = true) :=
  mode_bits_disjoint_from_clock_and_port_bits 7 15 7
    (by decide) (by decide) (by decide)

/-- C10: for every timer, `setMode (0, NO_CLOCK, NO_PORT)` leaves both
control registers equal to exactly 0: mode 0's table entry is `(0, 0)` and
`NO_CLOCK` and `NO_PORT` are both 0, so the fully cleared register pair is
reachable through the public interface. -/
theorem setMode_zero_reaches_cleared_registers (s0 s1 s2 : RegPair) :
    Timer0.setMode 0 Timer0.NO_CLOCK Timer0.NO_PORT s0 = ⟨0, 0⟩ ∧
    Timer1.setMode 0 Timer1.NO_CLOCK Timer1.NO_PORT s1 = ⟨0, 0⟩ ∧
    Timer2.setMode 0 Timer2.NO_CLOCK Timer2.NO_PORT s2 = ⟨0, 0⟩ ∧
    Timer0.Modes.getD 0 (0, 0) = (0, 0) ∧
    Timer0.NO_CLOCK = 0 ∧ Timer0.NO_PORT = 0 ∧
    Timer1.Modes.getD 0 (0, 0) = (0, 0) ∧
    Timer1.NO_CLOCK = 0 ∧ Timer1.NO_PORT = 0 ∧
    Timer2.Modes.getD 0 (0, 0) = (0, 0) ∧
    Timer2.NO_CLOCK = 0 ∧ Timer2.NO_PORT = 0 := by
  refine ⟨?_, ?_, ?_, by decide, by decide, by decide, by decide, by decide,
    by decide, by decide, by decide, by decide⟩
  · rw [Timer0.setMode_valid_t0 0 Timer0.NO_CLOCK Timer0.NO_PORT (by omega) s0]
    decide
  · rw [Timer1.setMode_valid_t1 0 Timer1.NO_CLOCK Timer1.NO_PORT (by omega) s1]
    decide
  · rw [Timer2.setMode_valid_t2 0 Timer2.NO_CLOCK Timer2.NO_PORT (by omega) s2]
    decide
